import Mathlib

/-!
Shallow embedding of the authorizer repository's signup resolver
(`server/resolvers/signup.go`, given as `src/unnamed/part_000` with an
earlier snapshot in `src/unnamed/part_001`) and of the Cassandra
persistence provider for users
(`server/db/providers/cassandradb/user.go`), together with proofs of the
frozen claims about them.

Conventions of the embedding:
- Go `(T, error)` returns become `Except String T`; error values are the
  `fmt.Errorf` message strings of the source.
- External collaborators (config store, validators, password hashing,
  nonce/token generation, clock, uuid) are fields of an explicit `Env`
  record; the database is an explicit `DBState` record threaded through.
- `time.Now().Unix()` is the single instant `Env.now` (the call does not
  observe the clock advancing).
- Goroutine side effects (verification e-mail, webhook events, the
  durable session-audit insert of `part_000`) are detached from the
  response path in the source and are not part of the returned state.
- Go string primitives (`strings.ToLower`, `strings.Split`,
  `strings.Join`, `strings.Trim`, `strings.TrimSuffix`) are embedded as
  structurally recursive functions on `String.data` so that concrete
  runs reduce inside the kernel. `toLowerGo` matches Go on ASCII input
  (every input in this development is ASCII).
-/

/-- Embedding of Go `strings.ToLower` (ASCII range, matching Go on ASCII). -/
def toLowerGo (s : String) : String := ⟨s.data.map Char.toLower⟩

/-- Character-list worker for Go `strings.Split(s, ",")`. -/
def splitCommaChars : List Char → List (List Char)
  | [] => [[]]
  | c :: rest =>
    if c = ',' then [] :: splitCommaChars rest
    else
      match splitCommaChars rest with
      | g :: gs => (c :: g) :: gs
      | [] => [[c]]

/-- Embedding of Go `strings.Split(s, ",")`: `splitComma "" = [""]`. -/
def splitComma (s : String) : List String := (splitCommaChars s.data).map (fun l => ⟨l⟩)

/-- Embedding of Go `strings.Join(xs, ",")`. -/
def joinComma : List String → String
  | [] => ""
  | [x] => x
  | x :: y :: xs => x ++ "," ++ joinComma (y :: xs)

/-- Embedding of Go `strings.Trim(s, " ")`. -/
def trimSpaces (s : String) : String :=
  ⟨((s.data.dropWhile (fun c => c = ' ')).reverse.dropWhile (fun c => c = ' ')).reverse⟩

/-- Embedding of Go `strings.TrimSuffix(s, ",")`. -/
def trimSuffixComma (s : String) : String :=
  if s.data.getLast? = some ',' then ⟨s.data.dropLast⟩ else s

/-!
Constants of `server/constants` used by the resolver. The constants
package is not under `src/`; the key texts are the upstream values, and
only their distinctness matters to the embedding.
-/

/-- `constants.EnvKeyDisableSignUp`. -/
def EnvKeyDisableSignUp : String := "DISABLE_SIGN_UP"

/-- `constants.EnvKeyDisableBasicAuthentication`. -/
def EnvKeyDisableBasicAuthentication : String := "DISABLE_BASIC_AUTHENTICATION"

/-- `constants.EnvKeyDisableEmailVerification`. -/
def EnvKeyDisableEmailVerification : String := "DISABLE_EMAIL_VERIFICATION"

/-- `constants.EnvKeyRoles`. -/
def EnvKeyRoles : String := "ROLES"

/-- `constants.EnvKeyDefaultRoles`. -/
def EnvKeyDefaultRoles : String := "DEFAULT_ROLES"

/-- `constants.AuthRecipeMethodBasicAuth`. -/
def AuthRecipeMethodBasicAuth : String := "basic_auth"

/-- `constants.VerificationTypeBasicAuthSignup`. -/
def VerificationTypeBasicAuthSignup : String := "basic_auth_signup"

/-- `constants.TokenTypeSessionToken`. -/
def TokenTypeSessionToken : String := "session_token"

/-- `constants.TokenTypeAccessToken`. -/
def TokenTypeAccessToken : String := "access_token"

/-- `constants.TokenTypeRefreshToken`. -/
def TokenTypeRefreshToken : String := "refresh_token"

/-!
Data model (`server/db/models`). Field defaults are the Go zero values.
-/

/-- `models.User` (field set is the column list of
`server/db/providers/cassandradb/user.go`). -/
structure User where
  id : String := ""
  email : String := ""
  emailVerifiedAt : Option Int := none
  password : Option String := none
  signupMethods : String := ""
  givenName : Option String := none
  familyName : Option String := none
  middleName : Option String := none
  nickname : Option String := none
  gender : Option String := none
  birthdate : Option String := none
  phoneNumber : Option String := none
  phoneNumberVerifiedAt : Option Int := none
  picture : Option String := none
  roles : String := ""
  revokedTimestamp : Option Int := none
  createdAt : Int := 0
  updatedAt : Int := 0
deriving DecidableEq

/-- Modelled from the spec: the public user projection returned by
`user.AsAPIUser()` (`models.User.AsAPIUser` is not under `src/`) — the
user's public fields with the password and other sensitive fields
stripped, the comma-joined role string split into a list. -/
structure APIUser where
  id : String
  email : String
  emailVerifiedAt : Option Int
  signupMethods : String
  givenName : Option String
  familyName : Option String
  middleName : Option String
  nickname : Option String
  gender : Option String
  birthdate : Option String
  phoneNumber : Option String
  picture : Option String
  roles : List String
  createdAt : Int
  updatedAt : Int
deriving DecidableEq

/-- Modelled from the spec: `user.AsAPIUser()` strips the password and
splits the comma-joined role list. -/
def User.asAPIUser (u : User) : APIUser :=
  { id := u.id
    email := u.email
    emailVerifiedAt := u.emailVerifiedAt
    signupMethods := u.signupMethods
    givenName := u.givenName
    familyName := u.familyName
    middleName := u.middleName
    nickname := u.nickname
    gender := u.gender
    birthdate := u.birthdate
    phoneNumber := u.phoneNumber
    picture := u.picture
    roles := splitComma u.roles
    createdAt := u.createdAt
    updatedAt := u.updatedAt }

/-- `model.SignUpInput` (the fields `SignupResolver` reads). -/
structure SignUpInput where
  email : String
  password : String
  confirmPassword : String
  roles : List String := []
  givenName : Option String := none
  familyName : Option String := none
  middleName : Option String := none
  nickname : Option String := none
  gender : Option String := none
  birthdate : Option String := none
  phoneNumber : Option String := none
  picture : Option String := none
  scope : Option (List String) := none
  redirectURI : Option String := none
deriving DecidableEq

/-- `models.VerificationRequest` (the fields `SignupResolver` writes). -/
structure VerificationRequest where
  token : String
  identifier : String
  expiresAt : Int
  email : String
  nonce : String
  redirectURI : String
deriving DecidableEq

/-- `models.Session` (the fields the Cassandra provider touches). -/
structure SessionRow where
  id : String := ""
  userId : String := ""
  userAgent : String := ""
  ip : String := ""
deriving DecidableEq

/-- `model.AuthResponse`. -/
structure AuthResponse where
  message : String
  accessToken : Option String := none
  refreshToken : Option String := none
  expiresIn : Option Int := none
  user : Option APIUser := none
deriving DecidableEq

/-- One token of `token.CreateAuthToken`'s result: value and expiry. -/
structure TokenInfo where
  token : String
  expiresAt : Int
deriving DecidableEq

/-- `token.Token` as returned by `token.CreateAuthToken`. -/
structure AuthToken where
  accessToken : TokenInfo
  refreshToken : Option TokenInfo := none
  fingerPrint : String := ""
  fingerPrintHash : String := ""
deriving DecidableEq

/-- The database and session-cache state threaded through the embedding:
user rows, verification-request rows, session rows, and the in-memory
session cache written by `memorystore.Provider.SetUserSession`
(entries `(key, subKey, value)`). -/
structure DBState where
  users : List User := []
  verificationRequests : List VerificationRequest := []
  sessions : List SessionRow := []
  sessionCache : List (String × String × String) := []
deriving DecidableEq

/-- The external collaborators of `SignupResolver`, passed explicitly:
the config store reads, the validator package, password hashing, nonce
and token generation, the clock, the uuid supply, host/app-URL values
from the request, and failure oracles for the two provider writes. -/
structure Env where
  getBoolEnv : String → Except String Bool
  getStringEnv : String → Except String String
  isValidPassword : String → Except String Unit
  isValidEmail : String → Bool
  isValidRoles : List String → List String → Bool
  encryptPassword : String → String × Option String
  generateNonce : Except String (String × String)
  createVerificationToken : String → String → String → String → String → Except String String
  createAuthToken : User → List String → List String → Except String AuthToken
  host : String := ""
  appURL : String := ""
  now : Int := 0
  freshId : String := ""
  addUserFails : Bool := false
  addVerificationRequestFails : Bool := false

/-!
Database-provider operations over `DBState`. The resolver calls
`db.Provider`; the list-level semantics follows the Cassandra provider
(`server/db/providers/cassandradb`): `GetUserByEmail` is a
`WHERE email = … LIMIT 1` point lookup (first match, not-found is an
error), `AddUser` assigns a uuid when the ID is empty, defaults the
roles from the default-role flag when empty, stamps created/updated
times and inserts. Query-execution failure (store unreachable) is the
`Env` failure oracles.
-/

/-- `db.Provider.GetUserByEmail`: first row with the given email;
not-found surfaces as an error (`gocql.ErrNotFound`). -/
def dbGetUserByEmail (st : DBState) (email : String) : Except String User :=
  match st.users.find? (fun u => u.email == email) with
  | some u => Except.ok u
  | none => Except.error "not found"

/-- `db.Provider.AddUser` (Cassandra provider semantics): uuid when the
ID is empty, default roles when empty, created/updated stamps, insert. -/
def dbAddUser (env : Env) (st : DBState) (user : User) : Except String (User × DBState) :=
  if env.addUserFails then Except.error "store unavailable"
  else
    let user := if user.id = "" then { user with id := env.freshId } else user
    if user.roles = "" then
      match env.getStringEnv EnvKeyDefaultRoles with
      | Except.error e => Except.error e
      | Except.ok defaultRoles =>
        let user := { user with roles := defaultRoles, createdAt := env.now, updatedAt := env.now }
        Except.ok (user, { st with users := st.users ++ [user] })
    else
      let user := { user with createdAt := env.now, updatedAt := env.now }
      Except.ok (user, { st with users := st.users ++ [user] })

/-- Modelled from the spec: `db.Provider.AddVerificationRequest` (the
verification-request provider is not under `src/`) — persists the row,
superseding any prior live request of the same `(email, identifier)`
pair, per the spec's data-model invariant of exactly one live request
per pair. -/
def dbAddVerificationRequest (env : Env) (st : DBState) (vr : VerificationRequest) :
    Except String (VerificationRequest × DBState) :=
  if env.addVerificationRequestFails then Except.error "store unavailable"
  else
    let kept := st.verificationRequests.filter
      (fun r => !(r.email == vr.email && r.identifier == vr.identifier))
    Except.ok (vr, { st with verificationRequests := kept ++ [vr] })

/-- `memorystore.Provider.SetUserSession key subKey value`. -/
def setUserSession (st : DBState) (key subKey value : String) : DBState :=
  { st with sessionCache := st.sessionCache ++ [(key, subKey, value)] }

/-- The fail-closed flag read of `SignupResolver`
(`isX, err := GetBoolStoreEnvVariable(k); if err != nil { isX = true }`). -/
def readBoolFlag (env : Env) (key : String) : Bool :=
  match env.getBoolEnv key with
  | Except.ok b => b
  | Except.error _ => true

/-- `SignupResolver` (`src/unnamed/part_000`). Returns the Go pair
`(res, err)` as an `Except`, together with the resulting store state.
The detached goroutines (verification e-mail, webhook events, the
durable session-audit insert) are off the response path in the source
and are not modelled as state. -/
def SignupResolver (env : Env) (st : DBState) (params : SignUpInput) :
    Except String AuthResponse × DBState :=
  if readBoolFlag env EnvKeyDisableSignUp then
    (Except.error "signup is disabled for this instance", st)
  else if readBoolFlag env EnvKeyDisableBasicAuthentication then
    (Except.error "basic authentication is disabled for this instance", st)
  else if params.confirmPassword ≠ params.password then
    (Except.error "password and confirm password does not match", st)
  else
    match env.isValidPassword params.password with
    | Except.error e => (Except.error e, st)
    | Except.ok _ =>
      let email := toLowerGo params.email
      if ¬ env.isValidEmail email then
        (Except.error "invalid email address", st)
      else
        let existingUser : User :=
          match dbGetUserByEmail st email with
          | Except.ok u => u
          | Except.error _ => {}
        if existingUser.emailVerifiedAt.isSome then
          (Except.error (email ++ " has already signed up"), st)
        else if existingUser.id ≠ "" ∧ existingUser.emailVerifiedAt = none then
          (Except.error (email ++ " has already signed up. please complete the email verification process or reset the password"), st)
        else
          match (if params.roles.length > 0 then
                   match env.getStringEnv EnvKeyRoles with
                   | Except.error e => Except.error e
                   | Except.ok rolesString =>
                     if ¬ env.isValidRoles params.roles (splitComma rolesString) then
                       Except.error "invalid roles"
                     else Except.ok params.roles
                 else
                   match env.getStringEnv EnvKeyDefaultRoles with
                   | Except.error e => Except.error e
                   | Except.ok s => Except.ok (splitComma s) :
                 Except String (List String)) with
          | Except.error e => (Except.error e, st)
          | Except.ok inputRoles =>
            let isEmailVerificationDisabled := readBoolFlag env EnvKeyDisableEmailVerification
            let user : User :=
              { email := email
                roles := joinComma inputRoles
                password := some (env.encryptPassword params.password).1
                givenName := params.givenName
                familyName := params.familyName
                middleName := params.middleName
                nickname := params.nickname
                gender := params.gender
                birthdate := params.birthdate
                phoneNumber := params.phoneNumber
                picture := params.picture
                signupMethods := AuthRecipeMethodBasicAuth
                emailVerifiedAt := if isEmailVerificationDisabled then some env.now else none }
            match dbAddUser env st user with
            | Except.error e => (Except.error e, st)
            | Except.ok (user, st1) =>
              let roles := splitComma user.roles
              let userToReturn := user.asAPIUser
              if ¬ isEmailVerificationDisabled then
                match env.generateNonce with
                | Except.error e => (Except.error e, st1)
                | Except.ok (_, nonceHash) =>
                  let verificationType := VerificationTypeBasicAuthSignup
                  let redirectURL :=
                    match params.redirectURI with
                    | some r => r
                    | none => env.appURL
                  match env.createVerificationToken email verificationType env.host nonceHash redirectURL with
                  | Except.error e => (Except.error e, st1)
                  | Except.ok verificationToken =>
                    match dbAddVerificationRequest env st1
                        { token := verificationToken
                          identifier := verificationType
                          expiresAt := env.now + 30 * 60
                          email := email
                          nonce := nonceHash
                          redirectURI := redirectURL } with
                    | Except.error e => (Except.error e, st1)
                    | Except.ok (_, st2) =>
                      (Except.ok { message := "Verification email has been sent. Please check your inbox",
                                   user := some userToReturn }, st2)
              else
                let scope0 := ["openid", "email", "profile"]
                let scope :=
                  match params.scope with
                  | some s => if scope0.length > 0 then s else scope0
                  | none => scope0
                match env.createAuthToken user roles scope with
                | Except.error e => (Except.error e, st1)
                | Except.ok authToken =>
                  let expiresIn0 := authToken.accessToken.expiresAt - env.now
                  let expiresIn := if expiresIn0 ≤ 0 then 1 else expiresIn0
                  let res : AuthResponse :=
                    { message := "Signed up successfully."
                      accessToken := some authToken.accessToken.token
                      refreshToken := authToken.refreshToken.map TokenInfo.token
                      expiresIn := some expiresIn
                      user := some userToReturn }
                  let sessionKey := AuthRecipeMethodBasicAuth ++ ":" ++ user.id
                  let st2 := setUserSession st1 sessionKey
                    (TokenTypeSessionToken ++ "_" ++ authToken.fingerPrint) authToken.fingerPrintHash
                  let st3 := setUserSession st2 sessionKey
                    (TokenTypeAccessToken ++ "_" ++ authToken.fingerPrint) authToken.accessToken.token
                  let st4 :=
                    match authToken.refreshToken with
                    | some rt => setUserSession st3 sessionKey
                        (TokenTypeRefreshToken ++ "_" ++ authToken.fingerPrint) rt.token
                    | none => st3
                  (Except.ok res, st4)

/-!
The Cassandra provider (`server/db/providers/cassandradb/user.go`).
Query texts are embedded verbatim; record-to-map flattening follows the
source's `json.Marshal` + `json.Decoder.UseNumber` pipeline: an int64
field marshals to its exact decimal numeral, and `UseNumber` keeps that
numeral verbatim as a `json.Number` (instead of decoding through
float64), so `JVal.num` carries the numeral string. The map is embedded
as an ordered association list (Go map iteration order is unspecified;
none of the claims depends on it).
-/

/-- `models.Collections.User` ("authorizer_" namespace + "users"). -/
def userTable : String := "authorizer_users"

/-- `models.Collections.Session` ("authorizer_" namespace + "sessions"). -/
def sessionTable : String := "authorizer_sessions"

/-- The column list the provider selects for users. -/
def userSelectColumns : String := "id, email, email_verified_at, password, signup_methods, given_name, family_name, middle_name, nickname, birthdate, phone_number, phone_number_verified_at, picture, roles, revoked_timestamp, created_at, updated_at"

/-- A decoded JSON value of the user map: a string, or a `json.Number`
carrying the literal decimal numeral. -/
inductive JVal where
  | str : String → JVal
  | num : String → JVal
deriving DecidableEq

/-- How `AddUser`/`UpdateUser` render one map value into the query text:
`fmt.Sprintf("'%s'", v)` for a string, `fmt.Sprintf("%v", v)` for a
`json.Number` (which prints the numeral verbatim). -/
def renderValue : JVal → String
  | JVal.str s => "'" ++ s ++ "'"
  | JVal.num n => n

/-- The `json.Marshal` + `UseNumber`-decode image of a `models.User`:
keys are the JSON tags (`_id` for the ID, otherwise the column names),
`none` is a JSON null / omitted field, int64 fields carry their exact
decimal numeral. -/
def marshalUserMap (u : User) : List (String × Option JVal) :=
  [("_id", some (JVal.str u.id)),
   ("email", some (JVal.str u.email)),
   ("email_verified_at", u.emailVerifiedAt.map (fun v => JVal.num (Int.repr v))),
   ("password", u.password.map JVal.str),
   ("signup_methods", some (JVal.str u.signupMethods)),
   ("given_name", u.givenName.map JVal.str),
   ("family_name", u.familyName.map JVal.str),
   ("middle_name", u.middleName.map JVal.str),
   ("nickname", u.nickname.map JVal.str),
   ("gender", u.gender.map JVal.str),
   ("birthdate", u.birthdate.map JVal.str),
   ("phone_number", u.phoneNumber.map JVal.str),
   ("phone_number_verified_at", u.phoneNumberVerifiedAt.map (fun v => JVal.num (Int.repr v))),
   ("picture", u.picture.map JVal.str),
   ("roles", some (JVal.str u.roles)),
   ("revoked_timestamp", u.revokedTimestamp.map (fun v => JVal.num (Int.repr v))),
   ("created_at", some (JVal.num (Int.repr u.createdAt))),
   ("updated_at", some (JVal.num (Int.repr u.updatedAt)))]

/-- `AddUser`'s loop over the user map: nil values are skipped, the key
`_id` becomes the column `id`, every entry appends `key,` to the fields
string and the rendered value plus `,` to the values string. -/
def addUserFieldsValues (m : List (String × Option JVal)) : String × String :=
  m.foldl
    (fun acc kv =>
      match kv.2 with
      | none => acc
      | some v =>
        (acc.1 ++ (if kv.1 = "_id" then "id" else kv.1) ++ ",",
         acc.2 ++ renderValue v ++ ","))
    ("(", "(")

/-- `fields[:len(fields)-1] + ")"`: drop the trailing comma, close. -/
def closeParen (s : String) : String := ⟨s.data.dropLast⟩ ++ ")"

/-- The INSERT query text `AddUser` executes. -/
def addUserQuery (keySpace : String) (u : User) : String :=
  let fv := addUserFieldsValues (marshalUserMap u)
  "INSERT INTO " ++ keySpace ++ "." ++ userTable ++ " " ++ closeParen fv.1 ++
    " VALUES " ++ closeParen fv.2 ++ " IF NOT EXISTS"

/-- `UpdateUser`'s loop over the user map: `_id` and `_key` are skipped,
nil values append `key = null,`, others append `key = <rendered>, `. -/
def updateUserSetClause (m : List (String × Option JVal)) : String :=
  m.foldl
    (fun acc kv =>
      if kv.1 = "_id" then acc
      else if kv.1 = "_key" then acc
      else
        match kv.2 with
        | none => acc ++ kv.1 ++ " = null,"
        | some v => acc ++ kv.1 ++ " = " ++ renderValue v ++ ", ")
    ""

/-- The UPDATE query text `UpdateUser` executes. -/
def updateUserQuery (keySpace : String) (u : User) : String :=
  let updateFields := trimSuffixComma (trimSpaces (updateUserSetClause (marshalUserMap u)))
  "UPDATE " ++ keySpace ++ "." ++ userTable ++ " SET " ++ updateFields ++
    " WHERE id = '" ++ u.id ++ "'"

/-- The SELECT query text `GetUserByEmail` executes: the e-mail is
spliced between two single quotes by `fmt.Sprintf`. -/
def getUserByEmailQuery (keySpace email : String) : String :=
  "SELECT " ++ userSelectColumns ++ " FROM " ++ keySpace ++ "." ++ userTable ++
    " WHERE email = '" ++ email ++ "' LIMIT 1 ALLOW FILTERING"

/-- The single-quote character. -/
def singleQuote : Char := '\x27'

/-- What a CQL reader sees as the first single-quoted string literal of
a query text: the characters between the first quote and the next one. -/
def firstQuotedLiteral (s : String) : String :=
  ⟨((s.data.dropWhile (fun c => c ≠ singleQuote)).drop 1).takeWhile (fun c => c ≠ singleQuote)⟩

/-- Failure oracles for the Cassandra provider's query executions
(`p.db.Query(query).Exec()` / the session scanner). -/
structure CassEnv where
  userDeleteFails : Bool := false
  sessionScanFails : Bool := false
  sessionDeleteFails : Bool := false

/-- `DeleteUser` (`server/db/providers/cassandradb/user.go`): first
executes `DELETE FROM authorizer_users WHERE id = …`, then selects the
session IDs with `WHERE user_id = … ALLOW FILTERING`, then executes
`DELETE FROM authorizer_sessions WHERE id IN (…)`; any failing step
returns its error with the earlier steps already applied. -/
def DeleteUser (cenv : CassEnv) (st : DBState) (user : User) :
    Except String Unit × DBState :=
  if cenv.userDeleteFails then (Except.error "store unavailable", st)
  else
    let st1 := { st with users := st.users.filter (fun u => !(u.id == user.id)) }
    if cenv.sessionScanFails then (Except.error "scan failed", st1)
    else
      let sessionIDs := (st1.sessions.filter (fun s => s.userId == user.id)).map SessionRow.id
      if cenv.sessionDeleteFails then (Except.error "store unavailable", st1)
      else
        (Except.ok (),
         { st1 with sessions := st1.sessions.filter (fun s => !(sessionIDs.contains s.id)) })

/-- `model.Pagination` (the fields `ListUsers` reads; Go int64 values,
non-negative here). -/
structure Pagination where
  limit : Nat
  offset : Nat
deriving DecidableEq

/-- `model.Users`: the returned page and the pagination echo with the
total filled in from the count query. -/
structure UsersPage where
  users : List APIUser
  total : Nat
  limit : Nat
  offset : Nat
deriving DecidableEq

/-- `ListUsers`'s scanner loop: rows arrive in order, a counter starts
at 0, and a row is kept (projected via `AsAPIUser`) only once the
counter has reached the offset. -/
def listUsersScan : List User → Nat → Nat → List APIUser
  | [], _, _ => []
  | u :: rest, counter, offset =>
    if counter ≥ offset then u.asAPIUser :: listUsersScan rest (counter + 1) offset
    else listUsersScan rest (counter + 1) offset

/-- `ListUsers` (`server/db/providers/cassandradb/user.go`): a separate
`SELECT COUNT(*)` fills the total; the data query has
`LIMIT limit+offset` (Cassandra has no native OFFSET), and the scanner
loop discards the first `offset` rows. -/
def ListUsers (st : DBState) (p : Pagination) : UsersPage :=
  let total := st.users.length
  let fetched := st.users.take (p.limit + p.offset)
  { users := listUsersScan fetched 0 p.offset
    total := total
    limit := p.limit
    offset := p.offset }

/-!
Concrete collaborator instances for the spec's §8 scenario and for the
witnesses. The validator package is excluded from the core by the spec
(interface-only collaborators), so these are instances of that
interface, not embeddings of repository code.
-/

/-- Modelled from the spec: the password complexity policy of the
`validators` collaborator (`validators.IsValidPassword` is not under
`src/`) — at least 6 characters with a digit, an upper-case letter, a
lower-case letter and a special character (the policy the earlier
snapshot's error message documents). -/
def passwordPolicyOk (p : String) : Bool :=
  decide (p.length ≥ 6) && p.data.any Char.isDigit && p.data.any Char.isUpper &&
    p.data.any Char.isLower && p.data.any (fun c => "!@#$%^&*".data.contains c)

/-- Modelled from the spec: an e-mail format check of the `validators`
collaborator (interface-only in the spec); the scenario instance. -/
def emailFormatOk (e : String) : Bool := e.data.contains '@'

/-- The concrete collaborator instance of the spec's §8 scenario:
signup and basic auth enabled, email verification disabled, default
roles `user`, a working hasher, nonce and token generation. -/
def scenarioEnv : Env :=
  { getBoolEnv := fun k => Except.ok (k == EnvKeyDisableEmailVerification)
    getStringEnv := fun k => if k == EnvKeyDefaultRoles then Except.ok "user" else Except.ok "user,admin"
    isValidPassword := fun p =>
      if passwordPolicyOk p then Except.ok () else Except.error "password is not valid"
    isValidEmail := emailFormatOk
    isValidRoles := fun requested allowed => requested.all (fun r => allowed.contains r)
    encryptPassword := fun p => ("hash:" ++ p, none)
    generateNonce := Except.ok ("nonce", "nonce-hash")
    createVerificationToken := fun _ _ _ _ _ => Except.ok "verification-token"
    createAuthToken := fun _ _ _ => Except.ok
      { accessToken := { token := "access-token", expiresAt := 1800 }
        refreshToken := none
        fingerPrint := "fp"
        fingerPrintHash := "fp-hash" }
    host := "localhost:8080"
    appURL := "http://localhost:8080"
    now := 1000
    freshId := "uuid-1" }

/-- The spec's §8 scenario input. -/
def scenarioParams : SignUpInput :=
  { email := "A@B.com", password := "Abc123!@", confirmPassword := "Abc123!@" }

/-- A verified user row already stored under the scenario e-mail. -/
def verifiedExistingUser : User := { id := "u1", email := "a@b.com", emailVerifiedAt := some 5 }

/-- An unverified user row already stored under the scenario e-mail. -/
def pendingExistingUser : User := { id := "u2", email := "a@b.com" }

/-- The user row of the `DeleteUser` cascade example. -/
def c3User : User := { id := "u1", email := "u@example.com" }

/-- A session row owned by `c3User`. -/
def c3Session : SessionRow := { id := "s1", userId := "u1" }

/-- A user whose creation timestamp lies above `2 ^ 53` (the float64
precision boundary). -/
def bigTimestampUser : User := { email := "a@b.com", createdAt := 9007199254740993 }

/-!
Helper lemmas shared by the claim theorems.
-/

/-- Superseding insert then key filter: filtering a store for a key
after removing that key's rows and appending one fresh row yields
exactly the fresh row. -/
theorem filter_supersede {α : Type} (pe pq : α → Bool) (l : List α) (vr : α)
    (h1 : pe vr = true) (h2 : pq vr = true) :
    List.filter (fun a => pe a && pq a)
      (List.filter (fun a => !pe a || !pq a) l ++ [vr]) = [vr] := by
  rw [List.filter_append, List.filter_filter]
  have hfalse : (fun a => (pe a && pq a) && (!pe a || !pq a)) = fun _ => false := by
    funext a; cases hp : pe a <;> cases hq : pq a <;> simp [hp, hq]
  rw [hfalse]
  simp [h1, h2]

/-- The scanner loop of `ListUsers` keeps exactly the rows from index
`offset - counter` on. -/
theorem listUsersScan_eq (l : List User) : ∀ counter offset : Nat,
    listUsersScan l counter offset = (l.drop (offset - counter)).map User.asAPIUser := by
  induction l with
  | nil => intro c o; simp [listUsersScan]
  | cons u rest ih =>
    intro c o
    by_cases h : c ≥ o
    · have h0 : o - c = 0 := Nat.sub_eq_zero_of_le h
      have h1 : o - (c + 1) = 0 := by omega
      simp [listUsersScan, h, h0, ih, h1]
    · have h2 : o - c = (o - (c + 1)) + 1 := by omega
      simp [listUsersScan, h, ih, h2]

/-- C1: for every signup input whose lower-cased email matches an
existing user record, a record with non-null `EmailVerifiedAt` makes
`SignupResolver` return the already-signed-up error, and a record with
a non-empty ID and null `EmailVerifiedAt` makes it return the
verification-pending error; in both cases the store state is unchanged
(no new user) and the result is an error (no token material). -/
theorem signup_duplicateEmail_branches (env : Env) (st : DBState) (params : SignUpInput)
    (u : User)
    (hsd : env.getBoolEnv EnvKeyDisableSignUp = Except.ok false)
    (hba : env.getBoolEnv EnvKeyDisableBasicAuthentication = Except.ok false)
    (hcp : params.confirmPassword = params.password)
    (hvp : env.isValidPassword params.password = Except.ok ())
    (hve : env.isValidEmail (toLowerGo params.email) = true)
    (hfind : dbGetUserByEmail st (toLowerGo params.email) = Except.ok u) :
    (u.emailVerifiedAt.isSome →
      SignupResolver env st params =
        (Except.error (toLowerGo params.email ++ " has already signed up"), st)) ∧
    (u.id ≠ "" → u.emailVerifiedAt = none →
      SignupResolver env st params =
        (Except.error (toLowerGo params.email ++ " has already signed up. please complete the email verification process or reset the password"), st)) := by
  constructor
  · intro hv
    simp [SignupResolver, readBoolFlag, hsd, hba, hcp, hvp, hve, hfind, hv]
  · intro hid hnone
    simp [SignupResolver, readBoolFlag, hsd, hba, hcp, hvp, hve, hfind, hid, hnone]

/-- C1 witness: both duplicate-email branches at concrete inputs. -/
theorem signup_duplicateEmail_branches_witness :
    (SignupResolver scenarioEnv { users := [verifiedExistingUser] } scenarioParams =
      (Except.error "a@b.com has already signed up", { users := [verifiedExistingUser] }) ∧
     SignupResolver scenarioEnv { users := [pendingExistingUser] } scenarioParams =
      (Except.error "a@b.com has already signed up. please complete the email verification process or reset the password", { users := [pendingExistingUser] })) := by
  constructor
  · exact (signup_duplicateEmail_branches scenarioEnv { users := [verifiedExistingUser] }
      scenarioParams verifiedExistingUser rfl rfl rfl rfl rfl rfl).1 rfl
  · exact (signup_duplicateEmail_branches scenarioEnv { users := [pendingExistingUser] }
      scenarioParams pendingExistingUser rfl rfl rfl rfl rfl rfl).2 (by decide) rfl

/-- C2: a failing read of the signup-disabled flag (or, with signup
enabled, of the basic-auth-disabled flag) makes `SignupResolver` return
the corresponding disabled error with the store state unchanged — the
flag read fails closed and signup never proceeds. -/
theorem signup_flagReads_failClosed (env : Env) (st : DBState) (params : SignUpInput) :
    (∀ e, env.getBoolEnv EnvKeyDisableSignUp = Except.error e →
      SignupResolver env st params =
        (Except.error "signup is disabled for this instance", st)) ∧
    (∀ e, env.getBoolEnv EnvKeyDisableSignUp = Except.ok false →
      env.getBoolEnv EnvKeyDisableBasicAuthentication = Except.error e →
      SignupResolver env st params =
        (Except.error "basic authentication is disabled for this instance", st)) := by
  constructor
  · intro e h
    simp [SignupResolver, readBoolFlag, h]
  · intro e h1 h2
    simp [SignupResolver, readBoolFlag, h1, h2]

/-- C2 witness: a flag store that always fails makes signup return the
disabled error on an otherwise valid input. -/
theorem signup_flagReads_failClosed_witness :
    SignupResolver { scenarioEnv with getBoolEnv := fun _ => Except.error "store down" }
        {} scenarioParams =
      (Except.error "signup is disabled for this instance", {}) :=
  (signup_flagReads_failClosed _ {} scenarioParams).1 "store down" rfl

/-- C3 (divergence witness): the Cassandra `DeleteUser` deletes the
user row FIRST and the session rows after; when the session delete
fails it returns an error with the user row already gone and the
session row still present (an orphaned session) — the reverse of the
claimed dependent sequence (sessions first, user kept on failure). -/
theorem deleteUser_userFirst_orphansSessions :
    DeleteUser { sessionDeleteFails := true } { users := [c3User], sessions := [c3Session] } c3User =
      (Except.error "store unavailable", { users := [], sessions := [c3Session] }) := by
  rfl

/-- C4: `ListUsers` fetches `limit + offset` rows, discards the first
`offset`, returns at most `limit` rows, and fills the total from the
separate count query; over 5 stored users, `limit = 2, offset = 1`
returns exactly the users at positions 2 and 3 in insertion order with
total 5. -/
theorem listUsers_offsetEmulation :
    (∀ (st : DBState) (p : Pagination),
      (ListUsers st p).users =
        ((st.users.take (p.limit + p.offset)).drop p.offset).map User.asAPIUser ∧
      (ListUsers st p).total = st.users.length ∧
      (ListUsers st p).users.length ≤ p.limit) ∧
    (∀ u1 u2 u3 u4 u5 : User,
      (ListUsers { users := [u1, u2, u3, u4, u5] } { limit := 2, offset := 1 }).users =
        [u2.asAPIUser, u3.asAPIUser] ∧
      (ListUsers { users := [u1, u2, u3, u4, u5] } { limit := 2, offset := 1 }).total = 5) := by
  constructor
  · intro st p
    refine ⟨?_, rfl, ?_⟩
    · simp [ListUsers, listUsersScan_eq]
    · simp only [ListUsers, listUsersScan_eq, List.length_map, List.length_drop,
        List.length_take]
      omega
  · intro u1 u2 u3 u4 u5
    exact ⟨rfl, rfl⟩

/-- C5: on the verification-enabled branch, `SignupResolver` returns
the check-your-inbox message with no access token, no refresh token and
no `ExpiresIn`, and afterwards exactly one `VerificationRequest` exists
for the (lower-cased email, basic-auth-signup) pair, expiring 30
minutes (1800 seconds) after creation time. -/
theorem signup_verifyBranch_oneRequest (env : Env) (st : DBState) (params : SignUpInput)
    (rolesStr nonce nonceHash vt e0 : String)
    (hsd : env.getBoolEnv EnvKeyDisableSignUp = Except.ok false)
    (hba : env.getBoolEnv EnvKeyDisableBasicAuthentication = Except.ok false)
    (hcp : params.confirmPassword = params.password)
    (hvp : env.isValidPassword params.password = Except.ok ())
    (hve : env.isValidEmail (toLowerGo params.email) = true)
    (hnf : dbGetUserByEmail st (toLowerGo params.email) = Except.error e0)
    (hrl : params.roles = [])
    (hdr : env.getStringEnv EnvKeyDefaultRoles = Except.ok rolesStr)
    (hev : env.getBoolEnv EnvKeyDisableEmailVerification = Except.ok false)
    (hau : env.addUserFails = false)
    (hnn : env.generateNonce = Except.ok (nonce, nonceHash))
    (hrd : params.redirectURI = none)
    (hvt : ∀ eml ty hs nh ru, env.createVerificationToken eml ty hs nh ru = Except.ok vt)
    (hvf : env.addVerificationRequestFails = false) :
    ∃ resp st2, SignupResolver env st params = (Except.ok resp, st2) ∧
      resp.message = "Verification email has been sent. Please check your inbox" ∧
      resp.accessToken = none ∧ resp.refreshToken = none ∧ resp.expiresIn = none ∧
      st2.verificationRequests.filter
          (fun r => r.email == toLowerGo params.email &&
            r.identifier == VerificationTypeBasicAuthSignup) =
        [{ token := vt
           identifier := VerificationTypeBasicAuthSignup
           expiresAt := env.now + 30 * 60
           email := toLowerGo params.email
           nonce := nonceHash
           redirectURI := env.appURL }] := by
  by_cases hz : joinComma (splitComma rolesStr) = "" <;>
  · simp [SignupResolver, readBoolFlag, dbAddUser, dbAddVerificationRequest,
      hsd, hba, hcp, hvp, hve, hnf, hrl, hdr, hev, hau, hnn, hrd, hvt, hvf, hz]
    refine ⟨_, _, ⟨rfl, rfl⟩, rfl, rfl, rfl, rfl, ?_⟩
    apply filter_supersede
    · simp
    · simp

/-- C5 witness: the verification branch at concrete inputs — one
request for the pair, expiring at `now + 1800`, and a token-free
response. -/
theorem signup_verifyBranch_oneRequest_witness :
    ∃ resp st2,
      SignupResolver { scenarioEnv with getBoolEnv := fun _ => Except.ok false } {} scenarioParams =
        (Except.ok resp, st2) ∧
      resp.message = "Verification email has been sent. Please check your inbox" ∧
      resp.accessToken = none ∧ resp.refreshToken = none ∧ resp.expiresIn = none ∧
      st2.verificationRequests.filter
          (fun r => r.email == toLowerGo scenarioParams.email &&
            r.identifier == VerificationTypeBasicAuthSignup) =
        [{ token := "verification-token"
           identifier := VerificationTypeBasicAuthSignup
           expiresAt := 1000 + 30 * 60
           email := toLowerGo scenarioParams.email
           nonce := "nonce-hash"
           redirectURI := "http://localhost:8080" }] :=
  signup_verifyBranch_oneRequest _ {} scenarioParams "user" "nonce" "nonce-hash"
    "verification-token" "not found" rfl rfl rfl rfl rfl rfl rfl rfl rfl rfl rfl rfl
    (fun _ _ _ _ _ => rfl) rfl

/-- C6: on the verification-disabled branch, the returned `ExpiresIn`
equals `max 1 (accessToken.ExpiresAt - now)` — at least 1 even when the
difference is zero or negative — and the response carries the issued
(non-empty) access token. -/
theorem signup_expiresIn_clamped (env : Env) (st : DBState) (params : SignUpInput)
    (rolesStr e0 : String) (tok : AuthToken)
    (hsd : env.getBoolEnv EnvKeyDisableSignUp = Except.ok false)
    (hba : env.getBoolEnv EnvKeyDisableBasicAuthentication = Except.ok false)
    (hcp : params.confirmPassword = params.password)
    (hvp : env.isValidPassword params.password = Except.ok ())
    (hve : env.isValidEmail (toLowerGo params.email) = true)
    (hnf : dbGetUserByEmail st (toLowerGo params.email) = Except.error e0)
    (hrl : params.roles = [])
    (hdr : env.getStringEnv EnvKeyDefaultRoles = Except.ok rolesStr)
    (hev : env.getBoolEnv EnvKeyDisableEmailVerification = Except.ok true)
    (hau : env.addUserFails = false)
    (hat : ∀ u rs sc, env.createAuthToken u rs sc = Except.ok tok)
    (htk : tok.accessToken.token ≠ "") :
    ∃ resp st2, SignupResolver env st params = (Except.ok resp, st2) ∧
      resp.expiresIn = some (max 1 (tok.accessToken.expiresAt - env.now)) ∧
      (∀ v, resp.expiresIn = some v → 1 ≤ v) ∧
      resp.accessToken = some tok.accessToken.token ∧
      resp.accessToken ≠ some "" ∧ resp.accessToken ≠ none := by
  by_cases hz : joinComma (splitComma rolesStr) = "" <;>
  · simp [SignupResolver, readBoolFlag, dbAddUser, hsd, hba, hcp, hvp, hve, hnf, hrl,
      hdr, hev, hau, hat, hz]
    refine ⟨?_, ?_, htk⟩
    · split <;> omega
    · split <;> omega

/-- C6 witness: the authenticated branch at concrete inputs —
`ExpiresIn = max 1 (1800 - 1000) = 800` and the access token present. -/
theorem signup_expiresIn_clamped_witness :
    ∃ resp st2, SignupResolver scenarioEnv {} scenarioParams = (Except.ok resp, st2) ∧
      resp.expiresIn = some (max 1 (1800 - 1000)) ∧
      (∀ v, resp.expiresIn = some v → 1 ≤ v) ∧
      resp.accessToken = some "access-token" ∧
      resp.accessToken ≠ some "" ∧ resp.accessToken ≠ none :=
  signup_expiresIn_clamped scenarioEnv {} scenarioParams "user" "not found"
    { accessToken := { token := "access-token", expiresAt := 1800 }
      refreshToken := none
      fingerPrint := "fp"
      fingerPrintHash := "fp-hash" }
    rfl rfl rfl rfl rfl rfl rfl rfl rfl rfl (fun _ _ _ => rfl) (by decide)

set_option maxRecDepth 10000 in
/-- C7 (divergence witness): `GetUserByEmail` splices the raw e-mail
between two single quotes; a value containing a quote is NOT inert — the
first quoted literal a CQL reader sees in the built query is `a`, not
the whole value, so the quote alters the query structure. The same raw
`renderValue` splice feeds `AddUser` and `UpdateUser`. -/
theorem getUserByEmail_rawSplice :
    getUserByEmailQuery "authorizer" "a'b@x.com" =
      "SELECT " ++ userSelectColumns ++
        " FROM authorizer.authorizer_users WHERE email = 'a'b@x.com' LIMIT 1 ALLOW FILTERING" ∧
    firstQuotedLiteral (getUserByEmailQuery "authorizer" "a'b@x.com") = "a" ∧
    firstQuotedLiteral (getUserByEmailQuery "authorizer" "ok@x.com") = "ok@x.com" ∧
    renderValue (JVal.str "a'b@x.com") = "'a'b@x.com'" ∧
    firstQuotedLiteral (renderValue (JVal.str "a'b@x.com")) = "a" := by
  refine ⟨rfl, by decide, by decide, rfl, by decide⟩

set_option maxRecDepth 10000 in
/-- C8: the `UseNumber` map pipeline of `AddUser`/`UpdateUser` carries
each int64 field as its exact decimal numeral (`json.Number`), and the
renderer emits that numeral verbatim, so the value rendered into the
query equals the original integer exactly — including `2 ^ 53 + 1 =
9007199254740993`, which appears verbatim in the built INSERT query. -/
theorem numericFields_exactDecimal :
    (∀ u : User,
      (marshalUserMap u).lookup "created_at" = some (some (JVal.num (Int.repr u.createdAt))) ∧
      (marshalUserMap u).lookup "updated_at" = some (some (JVal.num (Int.repr u.updatedAt))) ∧
      (marshalUserMap u).lookup "email_verified_at" =
        some (u.emailVerifiedAt.map (fun v => JVal.num (Int.repr v))) ∧
      (marshalUserMap u).lookup "revoked_timestamp" =
        some (u.revokedTimestamp.map (fun v => JVal.num (Int.repr v))) ∧
      renderValue (JVal.num (Int.repr u.createdAt)) = Int.repr u.createdAt) ∧
    Int.repr 9007199254740993 = "9007199254740993" ∧
    List.IsInfix (Int.repr 9007199254740993).data
      (addUserQuery "authorizer" bigTimestampUser).data := by
  refine ⟨fun u => ⟨rfl, rfl, rfl, rfl, rfl⟩, by decide, by decide⟩

/-- C9: the e-mail is case-folded before the format check (an input
whose lower-cased e-mail fails validation is rejected with the
invalid-email error no matter its original case), and the spec's §8
scenario — `A@B.com` with matching valid passwords, signup and basic
auth enabled, verification disabled, default roles `user` — yields a
user projection with e-mail `a@b.com` and roles `["user"]` and a
response carrying the access token. -/
theorem signup_email_caseFolded :
    (∀ (env : Env) (st : DBState) (params : SignUpInput),
      env.getBoolEnv EnvKeyDisableSignUp = Except.ok false →
      env.getBoolEnv EnvKeyDisableBasicAuthentication = Except.ok false →
      params.confirmPassword = params.password →
      env.isValidPassword params.password = Except.ok () →
      env.isValidEmail (toLowerGo params.email) = false →
      SignupResolver env st params = (Except.error "invalid email address", st)) ∧
    (∃ resp st2, SignupResolver scenarioEnv {} scenarioParams = (Except.ok resp, st2) ∧
      resp.user.map APIUser.email = some "a@b.com" ∧
      resp.user.map APIUser.roles = some ["user"] ∧
      resp.accessToken = some "access-token") := by
  constructor
  · intro env st params hsd hba hcp hvp hbad
    simp [SignupResolver, readBoolFlag, hsd, hba, hcp, hvp, hbad]
  · exact ⟨_, _, rfl, rfl, rfl, rfl⟩

/-- C9 witness: a validator that rejects every e-mail makes the
scenario input fail with the invalid-email error. -/
theorem signup_email_caseFolded_witness :
    SignupResolver { scenarioEnv with isValidEmail := fun _ => false } {} scenarioParams =
      (Except.error "invalid email address", {}) :=
  signup_email_caseFolded.1 { scenarioEnv with isValidEmail := fun _ => false } {}
    scenarioParams rfl rfl rfl rfl rfl

/-- C10: when the password-hashing collaborator reports an error, the
resolver discards it — the user row is persisted with whatever digest
value was returned and signup reports success. -/
theorem signup_hashError_discarded (env : Env) (st : DBState) (params : SignUpInput)
    (rolesStr e0 digest failMsg : String) (tok : AuthToken)
    (hsd : env.getBoolEnv EnvKeyDisableSignUp = Except.ok false)
    (hba : env.getBoolEnv EnvKeyDisableBasicAuthentication = Except.ok false)
    (hcp : params.confirmPassword = params.password)
    (hvp : env.isValidPassword params.password = Except.ok ())
    (hve : env.isValidEmail (toLowerGo params.email) = true)
    (hnf : dbGetUserByEmail st (toLowerGo params.email) = Except.error e0)
    (hrl : params.roles = [])
    (hdr : env.getStringEnv EnvKeyDefaultRoles = Except.ok rolesStr)
    (hev : env.getBoolEnv EnvKeyDisableEmailVerification = Except.ok true)
    (hau : env.addUserFails = false)
    (hat : ∀ u rs sc, env.createAuthToken u rs sc = Except.ok tok)
    (henc : env.encryptPassword params.password = (digest, some failMsg)) :
    ∃ resp st2 u2, SignupResolver env st params = (Except.ok resp, st2) ∧
      st2.users = st.users ++ [u2] ∧ u2.password = some digest ∧
      resp.message = "Signed up successfully." := by
  by_cases hz : joinComma (splitComma rolesStr) = "" <;>
  · rcases hrt : tok.refreshToken with _ | rt <;>
    · simp [SignupResolver, readBoolFlag, dbAddUser, setUserSession, hsd, hba, hcp, hvp,
        hve, hnf, hrl, hdr, hev, hau, hat, henc, hz, hrt]
      exact ⟨_, _, ⟨rfl, rfl⟩, _, rfl, rfl, rfl⟩

/-- C10 witness: a hasher that fails with an empty digest still yields
a persisted user row (password `""`) and a success response. -/
theorem signup_hashError_discarded_witness :
    ∃ resp st2 u2,
      SignupResolver { scenarioEnv with encryptPassword := fun _ => ("", some "hash failure") }
          {} scenarioParams =
        (Except.ok resp, st2) ∧
      st2.users = [] ++ [u2] ∧ u2.password = some "" ∧
      resp.message = "Signed up successfully." :=
  signup_hashError_discarded _ {} scenarioParams "user" "not found" "" "hash failure"
    { accessToken := { token := "access-token", expiresAt := 1800 }
      refreshToken := none
      fingerPrint := "fp"
      fingerPrintHash := "fp-hash" }
    rfl rfl rfl rfl rfl rfl rfl rfl rfl rfl (fun _ _ _ => rfl) rfl
